import Mathlib

/-!
Verification development for the mannyai backend core: a shallow embedding of
the code sandbox (backend/src/services/cq_ai_exec.py), the geometric
signature and modification retry loop (backend/src/api/endpoints_chat.py),
and the git-backed version timeline (backend/src/services/timeline.py),
together with theorems settling the spec claims about them.

Conventions of the embedding:
- machine floats (volume/area scalars) are modelled as exact rationals;
- external collaborators (the code generator, the geometry kernel, trimesh)
  are modelled as oracles describing the outcome of each call site;
- Python exceptions are modelled as explicit outcome constructors;
- file contents are modelled abstractly (a STEP artifact is its geometric
  content plus a tag for the remaining bytes).
-/

/-! ## Sandbox: backend/src/services/cq_ai_exec.py -/

/-- Result record of one sandbox execution, mirroring the Python dataclass
ExecResult with fields ok, error, step_path. -/
structure ExecResult where
  ok : Bool
  error : Option String
  step_path : Option String
deriving DecidableEq

/-- Keys of the dictionary bound to __builtins__ in the globals that
cq_ai_exec._worker passes to exec, transcribed from the source
(safe_globals["__builtins__"]). -/
def workerBuiltins : List String :=
  ["__import__", "abs", "min", "max", "sum", "len", "range", "enumerate",
   "zip", "float", "int", "str", "bool", "dict", "list", "set", "tuple",
   "print", "round"]

/-- Top-level keys of the globals dictionary that cq_ai_exec._worker passes to
exec, transcribed from the source (safe_globals). -/
def workerGlobals : List String := ["__builtins__", "cq", "math"]

/-- Modelled from the spec: the allow-list the specification describes for the
worker namespace, namely arithmetic/collection primitives (plus the output
primitive print), the math library, and the geometry-engine handle.  This
definition follows the spec's words and exists only to be compared with
workerBuiltins, which is transcribed from the source. -/
def specAllowedBuiltins : List String :=
  ["abs", "min", "max", "sum", "len", "range", "enumerate", "zip", "float",
   "int", "str", "bool", "dict", "list", "set", "tuple", "print", "round"]

/-- A message the worker process can place on the result queue: the pair
("ok", path) or the pair ("error", message). -/
inductive WorkerReport where
  | ok (path : String)
  | error (msg : String)
deriving DecidableEq

/-- Outcome of the body of cq_ai_exec._worker, one constructor per exit path
of the Python function: importStep raising, a missing or uncallable modify
symbol, a wrong return type, the snippet (or exec/modify call) raising, or a
successful export to a temporary STEP file. -/
inductive WorkerEvent where
  | importFails (msg : String)
  | noModify
  | notWorkplane
  | snippetRaises (msg : String)
  | succeeds (tmpName : String)
deriving DecidableEq

/-- Report the worker puts on the queue for each event, mirroring the q.put
calls in cq_ai_exec._worker; a raised exception e is reported as str(e). -/
def worker : WorkerEvent → WorkerReport
  | .importFails m => .error m
  | .noModify =>
      .error "AI code must define a callable modify(model, *, params) function."
  | .notWorkplane => .error "modify() must return a cadquery.Workplane."
  | .snippetRaises m => .error m
  | .succeeds t => .ok t

/-- Behaviour of one worker process as observed by run_ai_cadquery: still
alive when the join deadline expires, terminated with an empty queue, or
terminated having put one report on the queue. -/
inductive WorkerBehavior where
  | hangs
  | silent
  | reported (r : WorkerReport)
deriving DecidableEq

/-- Timeout message of run_ai_cadquery; ts stands for the rendered value of
the float timeout_s in the Python f-string. -/
def timeoutMsg (ts : String) : String :=
  "Timed out after " ++ ts ++ "s running CadQuery code."

/-- Message run_ai_cadquery returns when the worker died without reporting. -/
def noResultMsg : String :=
  "No result returned from worker (possible pickle or import error)."

/-- Observable outcome of run_ai_cadquery: the returned ExecResult plus
whether p.kill() was invoked on the worker process. -/
structure SandboxOutcome where
  result : ExecResult
  killed : Bool
deriving DecidableEq

/-- Shallow embedding of cq_ai_exec.run_ai_cadquery: join with timeout, kill
and report timeout if the worker is still alive, report no_result on an empty
queue, otherwise translate the queued report into an ExecResult. -/
def run_ai_cadquery (ts : String) (b : WorkerBehavior) : SandboxOutcome :=
  match b with
  | .hangs => ⟨⟨false, some (timeoutMsg ts), none⟩, true⟩
  | .silent => ⟨⟨false, some noResultMsg, none⟩, false⟩
  | .reported (.ok p) => ⟨⟨true, none, some p⟩, false⟩
  | .reported (.error m) => ⟨⟨false, some m, none⟩, false⟩

/-! ## Geometric signature: endpoints_chat._bbox_sig -/

/-- Abstract STEP artifact: its two geometric scalars (enclosed volume and
surface area, modelled as exact rationals) plus a tag standing for all
remaining bytes, so that two artifacts can agree geometrically while
differing byte-for-byte. -/
structure StepFile where
  volume : ℚ
  area : ℚ
  rest : ℕ
deriving DecidableEq

/-- Embed an integer as a rational whose fields reduce in the kernel. -/
def qz (n : ℤ) : ℚ := ⟨n, 1, Nat.one_ne_zero, Int.natAbs n |>.coprime_one_right⟩

/-- Round n / d (with d positive) to the nearest integer, ties to even,
matching Python's round builtin on exact values; f is the floor of n / d and
r the remainder, so n / d rounds up exactly when r / d exceeds one half. -/
def roundHalfEvenScaled (n d : ℤ) : ℤ :=
  let f : ℤ := Int.fdiv n d
  let r : ℤ := n - f * d
  if 2 * r < d then f
  else if d < 2 * r then f + 1
  else if f % 2 = 0 then f else f + 1

/-- Round to 3 decimal places, as round(x, 3) does in _bbox_sig: the rational
q = num / den is scaled by 1000, rounded to the nearest integer and divided
back by 1000. -/
def round3 (q : ℚ) : ℚ :=
  Rat.divInt (roundHalfEvenScaled (1000 * q.num) (q.den : ℤ)) 1000

/-- Shallow embedding of endpoints_chat._bbox_sig: the pair of the volume and
the area, each rounded to 3 decimals; signatures are compared by exact tuple
equality. -/
def bbox_sig (f : StepFile) : ℚ × ℚ := (round3 f.volume, round3 f.area)

/-! ## Version timeline: backend/src/services/timeline.py

The CADTimeline class delegates to a git repository.  The embedding models
the git layer at the level the class uses it: a repository is a linear chain
of commits (oldest first, HEAD last), an index, a working directory of named
files, and a counter supplying fresh commit ids (standing for content
hashes, which git guarantees distinct).  The model directory holds only the
four tracked artifact files, so working tree and index are file maps. -/

/-- Named files and their contents. -/
def FileMap (α : Type) : Type := List (String × α)

/-- Write one file, replacing any previous entry with the same name. -/
def setFile {α : Type} (m : FileMap α) (name : String) (v : α) : FileMap α :=
  match m with
  | [] => [(name, v)]
  | (k, w) :: rest =>
      if k = name then (k, v) :: rest else (k, w) :: setFile rest name v

/-- Look up one file by name. -/
def findFile {α : Type} (m : FileMap α) (name : String) : Option α :=
  match m with
  | [] => none
  | (k, w) :: rest => if k = name then some w else findFile rest name

/-- One git commit as CADTimeline observes it: an id standing for the hash,
the commit message, the committer date, and the snapshot of tracked files. -/
structure Commit (α : Type) where
  hexsha : ℕ
  message : String
  committed_date : ℕ
  tree : FileMap α

/-- State of one model's repository: the linear commit chain reachable from
HEAD (oldest first, HEAD last), the index, a fresh-id counter, and the
working directory. -/
structure CADTimeline (α : Type) where
  chain : List (Commit α)
  index : FileMap α
  nextId : ℕ
  workdir : FileMap α

/-- A fresh repository over a given working directory, as CADTimeline.init
creates for a model directory with no history yet. -/
def emptyTimeline {α : Type} (w : FileMap α) : CADTimeline α :=
  ⟨[], [], 0, w⟩

/-- Staging step of save_revision: with a file list, index.add(files) copies
the named files from the working tree into the index; with none, git add -A
makes the index mirror the working tree. -/
def stageFiles {α : Type} (index workdir : FileMap α) :
    Option (List String) → FileMap α
  | none => workdir
  | some fs =>
      fs.foldl (fun acc f =>
        match findFile workdir f with
        | some v => setFile acc f v
        | none => acc) index

/-- Shallow embedding of CADTimeline.save_revision: stage the files, commit
the staged tree with a fresh id and the given message, append after HEAD,
and return the new commit's id. -/
def save_revision {α : Type} (tl : CADTimeline α) (message : String)
    (files : Option (List String)) (now : ℕ) : ℕ × CADTimeline α :=
  let idx := stageFiles tl.index tl.workdir files
  let c : Commit α := ⟨tl.nextId, message, now, idx⟩
  (tl.nextId, ⟨tl.chain ++ [c], idx, tl.nextId + 1, tl.workdir⟩)

/-- One row of get_history. -/
structure HistoryEntry where
  version : ℕ
  commit_hash : ℕ
  message : String
  timestamp : ℕ
deriving DecidableEq

/-- Enumerate a commit chain as history rows, numbering versions upward
starting at i, as the enumerate(commits, start=1) loop does. -/
def historyRows {α : Type} (i : ℕ) : List (Commit α) → List HistoryEntry
  | [] => []
  | c :: cs => ⟨i, c.hexsha, c.message, c.committed_date⟩ :: historyRows (i + 1) cs

/-- Shallow embedding of CADTimeline.get_history: all commits oldest first,
with version numbers 1..N assigned by position. -/
def get_history {α : Type} (tl : CADTimeline α) : List HistoryEntry :=
  historyRows 1 tl.chain

/-- Commits of the chain up to and including the first one with the given
hash, together with that commit; none if the hash is not in the chain
(where the git reset would fail). -/
def chainUpTo {α : Type} : List (Commit α) → ℕ → Option (List (Commit α) × Commit α)
  | [], _ => none
  | c :: cs, h =>
      if c.hexsha = h then some ([c], c)
      else (chainUpTo cs h).map (fun p => (c :: p.1, p.2))

/-- Shallow embedding of CADTimeline.revert_to: git reset --hard discards
every commit after the target, and makes index and working tree match the
target's snapshot. -/
def revert_to {α : Type} (tl : CADTimeline α) (h : ℕ) : Option (CADTimeline α) :=
  (chainUpTo tl.chain h).map (fun p =>
    ⟨p.1, p.2.tree, tl.nextId, p.2.tree⟩)

/-- Overlay a commit's snapshot onto a file map: every file recorded in the
snapshot is written, files not recorded there are left alone, as git
checkout commit -- . does for the working tree and index. -/
def overlayTree {α : Type} (base tree : FileMap α) : FileMap α :=
  tree.foldl (fun acc kv => setFile acc kv.1 kv.2) base

/-- Shallow embedding of CADTimeline.checkout_version: materialize the file
contents recorded at the given commit into the working tree (and index)
without touching the chain; none if the hash is unknown. -/
def checkout_version {α : Type} (tl : CADTimeline α) (h : ℕ) :
    Option (CADTimeline α) :=
  (tl.chain.find? (fun c => c.hexsha == h)).map (fun c =>
    ⟨tl.chain, overlayTree tl.index c.tree, tl.nextId, overlayTree tl.workdir c.tree⟩)

/-- Shallow embedding of CADTimeline.save_revision_from: read HEAD (none on
an empty repository, where repo.head.commit raises), truncate history with
revert_to when the requested base is not HEAD, then save_revision. -/
def save_revision_from {α : Type} (tl : CADTimeline α) (from_h : ℕ)
    (message : String) (files : Option (List String)) (now : ℕ) :
    Option (ℕ × CADTimeline α) :=
  match tl.chain.getLast? with
  | none => none
  | some head =>
      if from_h ≠ head.hexsha then
        (revert_to tl from_h).map (fun tl' => save_revision tl' message files now)
      else
        some (save_revision tl message files now)

/-- Shallow embedding of CADTimeline.get_current_version: the history row
whose hash is HEAD's hash, or none. -/
def get_current_version {α : Type} (tl : CADTimeline α) : Option HistoryEntry :=
  match tl.chain.getLast? with
  | none => none
  | some head => (get_history tl).find? (fun v => v.commit_hash == head.hexsha)

/-- Apply a sequence of save_revision calls (message, files, commit date),
discarding the returned ids; used to state claims about repeated saves. -/
def applySaves {α : Type} (tl : CADTimeline α) :
    List (String × Option (List String) × ℕ) → CADTimeline α
  | [] => tl
  | (m, fs, t) :: rest => applySaves (save_revision tl m fs t).2 rest

/-! ## Checkout endpoint: endpoints_chat.checkout_version (route) -/

/-- Outcome of the checkout route: a success response carrying the version
and hash, the 404 raised when the version is absent, or the 500 a git
failure would produce (unreachable when the hash comes from get_history). -/
inductive CheckoutOutcome where
  | ok (version : ℕ) (commit_hash : ℕ)
  | notFound (version : ℕ)
  | gitError
deriving DecidableEq

/-- Shallow embedding of the POST /versions/model_id/checkout route body:
look the requested version number up in get_history; absent means
HTTPException(404) with no state change; present means a non-destructive
checkout of that revision's files. -/
def checkoutEndpoint {α : Type} (tl : CADTimeline α) (reqVersion : ℕ) :
    CheckoutOutcome × CADTimeline α :=
  match (get_history tl).find? (fun v => v.version == reqVersion) with
  | none => (.notFound reqVersion, tl)
  | some tv =>
      match checkout_version tl tv.commit_hash with
      | some tl' => (.ok reqVersion tv.commit_hash, tl')
      | none => (.gitError, tl)

/-! ## Modification loop: endpoints_chat.chat_prompt (modification intent)

The embedding covers the retry loop of the route (the code from
MAX_RETRIES = 3 to the final HTTPException).  Intent classification and the
selection-summary rewrite upstream of the loop are not modelled.  The
external calls made by one loop iteration are modelled by an oracle record
describing each call site's outcome; the model directory is the timeline's
working tree, whose file "model.step" is the canonical artifact
(step_path). -/

/-- Outcome of the _openai_generate_cadquery call: generated source text, or
an exception (malformed response, network failure) caught by the loop. -/
inductive GenOutcome where
  | ok (code : String)
  | raises (msg : String)
deriving DecidableEq

/-- Oracle for the external calls of one loop iteration: the generator
outcome, the worker behaviour inside run_ai_cadquery, the artifact that
importStep reads from the sandbox's output file, and for each later call
site whether it raises (and with which message); now is the committer date
git records if the iteration commits. -/
structure AttemptEnv where
  gen : GenOutcome
  workerB : WorkerBehavior
  resultArtifact : StepFile
  importRaises : Option String
  exportStlRaises : Option String
  exportPreviewRaises : Option String
  exportModelRaises : Option String
  glbRaises : Option String
  commitRaises : Option String
  now : ℕ

/-- Mutable state of the retry loop: the instruction text req.prompt (grown
with feedback), last_err, last_code, and the model's repository (whose
working tree is the model directory). -/
structure LoopState where
  prompt : String
  last_err : String
  last_code : String
  tl : CADTimeline StepFile

/-- Python's x or default for an optional string: None and the empty string
are both falsy, as in exec_res.error or "Unknown execution error". -/
def pyOrElse (s : Option String) (dflt : String) : String :=
  match s with
  | none => dflt
  | some m => if m = "" then dflt else m

/-- Feedback appended to the prompt when execution fails, from the f-string
in the loop. -/
def execFeedback (prompt lastErr : String) : String :=
  prompt ++ "\n\nPrevious code failed with:\n" ++ lastErr ++
    "\nRewrite modify() to fix this."

/-- Error recorded when the signatures are equal. -/
def noOpErr : String :=
  "Model volume and area did not change. The modification had no visible effect."

/-- Feedback appended to the prompt when the signatures are equal, from the
f-string in the loop. -/
def noOpFeedback (prompt : String) : String :=
  prompt ++ "\n\nYour previous attempt produced no change to the model's volume or area.\n" ++
    "You MUST make a visible modification. Try a different approach.\n" ++
    "Ensure your BoxSelector is targeting the right geometry."

/-- Success message of the route, with the 1-based attempt number. -/
def appliedMsg (attempt : ℕ) : String :=
  "Applied modification (attempt " ++ toString (attempt + 1) ++ ")."

/-- Files committed to version history after a successful modification. -/
def modFiles : List String :=
  ["model.step", "preview.step", "preview.stl", "preview.glb"]

/-- Write one artifact file into the model directory (the repository's
working tree), as cq.exporters.export does. -/
def writeModelFile (tl : CADTimeline StepFile) (name : String) (v : StepFile) :
    CADTimeline StepFile :=
  ⟨tl.chain, tl.index, tl.nextId, setFile tl.workdir name v⟩

/-- Result of one loop iteration: a success return from the route, a
continue statement (execution failure or no-op), or an exception caught by
the except branch.  execCalled records whether run_ai_cadquery was invoked
in the iteration (instrumentation for the bounded-retries claim). -/
inductive AttemptStep where
  | committed (message code : String) (s' : LoopState)
  | retryContinue (execCalled : Bool) (s' : LoopState)
  | caught (execCalled : Bool) (s' : LoopState)

/-- Timeline-commit step of a successful iteration (the code after
_stl_to_glb): with req.from_version set, look its hash up in get_history and
truncate-then-commit from it, falling back to a plain save_revision when the
version is not found; without from_version, a plain save_revision.  The
message is req.prompt[:100] at commit time. -/
def commitTimeline (fromVersion : Option ℕ) (tl : CADTimeline StepFile)
    (prompt : String) (now : ℕ) : Option (CADTimeline StepFile) :=
  let msg := prompt.take 100
  match fromVersion with
  | some v =>
      match (get_history tl).find? (fun e => e.version == v) with
      | some entry =>
          (save_revision_from tl entry.commit_hash msg (some modFiles) now).map
            (fun r => r.2)
      | none => some (save_revision tl msg (some modFiles) now).2
  | none => some (save_revision tl msg (some modFiles) now).2

/-- Shallow embedding of one iteration of the retry loop in chat_prompt:
generate, execute in the sandbox with timeout 45.0, check exec_res, load the
output artifact, compare _bbox_sig before and after, then export previews,
overwrite the canonical model.step, convert to GLB and commit.  Any oracle
exception lands in the caught branch, as the except Exception handler only
records str(e). -/
def chatAttempt (fromVersion : Option ℕ) (attempt : ℕ) (env : AttemptEnv)
    (s : LoopState) : AttemptStep :=
  match env.gen with
  | .raises m => .caught false { s with last_err := m }
  | .ok code =>
    let s1 : LoopState := { s with last_code := code }
    let execRes := (run_ai_cadquery "45.0" env.workerB).result
    if !execRes.ok || execRes.step_path.isNone then
      let lastErr := pyOrElse execRes.error "Unknown execution error"
      .retryContinue true
        { s1 with last_err := lastErr, prompt := execFeedback s1.prompt lastErr }
    else
      match env.importRaises with
      | some m => .caught true { s1 with last_err := m }
      | none =>
        match findFile s1.tl.workdir "model.step" with
        | none =>
            -- importStep(str(step_path)) raising on an unreadable canonical
            -- artifact; the message stands for the geometry kernel's text.
            .caught true { s1 with last_err := "importStep failed" }
        | some base =>
          let beforeSig := bbox_sig base
          let afterSig := bbox_sig env.resultArtifact
          if beforeSig = afterSig then
            .retryContinue true
              { s1 with last_err := noOpErr, prompt := noOpFeedback s1.prompt }
          else
            match env.exportStlRaises with
            | some m => .caught true { s1 with last_err := m }
            | none =>
              let s2 := { s1 with tl := writeModelFile s1.tl "preview.stl" env.resultArtifact }
              match env.exportPreviewRaises with
              | some m => .caught true { s2 with last_err := m }
              | none =>
                let s3 := { s2 with tl := writeModelFile s2.tl "preview.step" env.resultArtifact }
                match env.exportModelRaises with
                | some m => .caught true { s3 with last_err := m }
                | none =>
                  let s4 := { s3 with tl := writeModelFile s3.tl "model.step" env.resultArtifact }
                  match env.glbRaises with
                  | some m => .caught true { s4 with last_err := m }
                  | none =>
                    let s5 := { s4 with tl := writeModelFile s4.tl "preview.glb" env.resultArtifact }
                    match env.commitRaises with
                    | some m => .caught true { s5 with last_err := m }
                    | none =>
                      match commitTimeline fromVersion s5.tl s5.prompt env.now with
                      | some tl' =>
                          .committed (appliedMsg attempt) code { s5 with tl := tl' }
                      | none =>
                          -- a git failure inside the commit step would also
                          -- be caught by the except branch
                          .caught true { s5 with last_err := "git error" }

/-- Terminal outcome of the route for a modification request: the success
response, or the HTTPException(500) detail after the loop. -/
inductive ChatOutcome where
  | success (message code : String) (s' : LoopState)
  | failed (detail : String) (s' : LoopState)

/-- Observable summary of one modification request: the outcome, the number
of loop iterations run, and the number of sandbox invocations. -/
structure RunSummary where
  outcome : ChatOutcome
  attempts : ℕ
  execCalls : ℕ

/-- Python's str.encode("ascii", "replace").decode("ascii"): non-ASCII
characters become question marks. -/
def asciiReplace (s : String) : String :=
  String.mk (s.data.map (fun c => if c.toNat ≤ 127 then c else '?'))

/-- Retry bound of the loop. -/
def MAX_RETRIES : ℕ := 3

/-- Detail string of the final HTTPException(500). -/
def failDetail (lastErr : String) : String :=
  "Failed after " ++ toString MAX_RETRIES ++ " attempts. Last error: " ++
    asciiReplace lastErr

/-- The for attempt in range(MAX_RETRIES) loop: run one iteration per unit
of fuel, stop early only on a success return, and raise the final
HTTPException when the fuel is exhausted. -/
def chatRetryLoop (fromVersion : Option ℕ) (envs : ℕ → AttemptEnv) :
    ℕ → ℕ → LoopState → RunSummary
  | _, 0, s => ⟨.failed (failDetail s.last_err) s, 0, 0⟩
  | i, fuel + 1, s =>
      match chatAttempt fromVersion i (envs i) s with
      | .committed msg code s' => ⟨.success msg code s', 1, 1⟩
      | .retryContinue e s' =>
          let r := chatRetryLoop fromVersion envs (i + 1) fuel s'
          ⟨r.outcome, r.attempts + 1, r.execCalls + (if e then 1 else 0)⟩
      | .caught e s' =>
          let r := chatRetryLoop fromVersion envs (i + 1) fuel s'
          ⟨r.outcome, r.attempts + 1, r.execCalls + (if e then 1 else 0)⟩

/-- Shallow embedding of the modification branch of chat_prompt: the retry
loop started on a fresh request with last_err = "Unknown", last_code empty,
the given instruction text, and the model's repository. -/
def chat_prompt_modification (fromVersion : Option ℕ) (envs : ℕ → AttemptEnv)
    (tl0 : CADTimeline StepFile) (prompt0 : String) : RunSummary :=
  chatRetryLoop fromVersion envs 0 MAX_RETRIES ⟨prompt0, "Unknown", "", tl0⟩

/-- Shape the C10 claim asserts of every result, transcribed from the
claim's words for refutation: success with no error and an artifact
reference, or failure with no artifact and a non-empty message. -/
def c10ClaimShape (r : ExecResult) : Prop :=
  (r.ok = true ∧ r.error = none ∧ r.step_path.isSome = true) ∨
  (r.ok = false ∧ r.step_path = none ∧ ∃ m, r.error = some m ∧ m ≠ "")

/-- Concrete one-commit timeline used to witness the checkout claim. -/
def c9fixture : CADTimeline ℕ :=
  ⟨[⟨0, "init", 5, [("model.step", 7)]⟩], [("model.step", 8)], 1,
    [("model.step", 8)]⟩

/-- Loop state carried by an iteration result. -/
def AttemptStep.state : AttemptStep → LoopState
  | .committed _ _ s => s
  | .retryContinue _ s => s
  | .caught _ s => s

/-- Whether an iteration result is the success return of the route. -/
def AttemptStep.isCommit : AttemptStep → Bool
  | .committed _ _ _ => true
  | _ => false

/-- An iteration whose oracle fails before the canonical-artifact export:
the generator raises, the sandbox result is not ok or has no artifact path,
loading the output raises, the output's signature equals the pre-change
signature, or one of the three cq exports raises.  sig0 is the signature of
the canonical artifact the iteration starts from. -/
def attemptFailsPreCommit (sig0 : ℚ × ℚ) (env : AttemptEnv) : Prop :=
  (∃ m, env.gen = GenOutcome.raises m) ∨
  (run_ai_cadquery "45.0" env.workerB).result.ok = false ∨
  (run_ai_cadquery "45.0" env.workerB).result.step_path = none ∨
  env.importRaises ≠ none ∨
  bbox_sig env.resultArtifact = sig0 ∨
  env.exportStlRaises ≠ none ∨
  env.exportPreviewRaises ≠ none ∨
  env.exportModelRaises ≠ none

/-- Canonical artifact of the concrete scenario fixtures: volume 1000, area
600 (the concrete scenario of the spec). -/
def a0 : StepFile := ⟨qz 1000, qz 600, 0⟩

/-- Modified artifact of the concrete scenario fixtures: volume 1125, area
650, a genuine geometric change from a0. -/
def b1 : StepFile := ⟨qz 1125, qz 650, 0⟩

/-- Concrete one-commit repository whose working tree holds the canonical
artifact a0. -/
def tlFix : CADTimeline StepFile :=
  ⟨[⟨0, "init", 0, [("model.step", a0)]⟩], [("model.step", a0)], 1,
    [("model.step", a0)]⟩

/-- Oracle of an iteration whose generator raises. -/
def envGenBoom : AttemptEnv :=
  ⟨.raises "boom", .hangs, a0, none, none, none, none, none, none, 0⟩

/-- Oracle of an iteration that succeeds through the canonical-artifact
export and then raises inside _stl_to_glb. -/
def envCommitCrash : AttemptEnv :=
  ⟨.ok "code1", .reported (.ok "/tmp/out.step"), b1, none, none, none, none,
    some "Failed STL->GLB: mesh error", none, 9⟩

/-- Oracle stream for the atomicity counterexample: the first iteration
crashes after overwriting model.step, the remaining ones fail in
generation. -/
def c1envs : ℕ → AttemptEnv := fun i => if i = 0 then envCommitCrash else envGenBoom

/-- Oracle of an iteration whose execution succeeds but returns an artifact
with the signature of a0 (differing bytes). -/
def envNoop : AttemptEnv :=
  ⟨.ok "noop code", .reported (.ok "/tmp/out.step"), ⟨qz 1000, qz 600, 5⟩,
    none, none, none, none, none, none, 0⟩

/-- Oracle of a fully successful iteration producing b1. -/
def envSuccess : AttemptEnv :=
  ⟨.ok "c6code", .reported (.ok "/tmp/out.step"), b1, none, none, none, none,
    none, none, 7⟩

/-! ## Claims about the sandbox (C2, C5, C10) -/

example : bbox_sig ⟨qz 1000, qz 600, 0⟩ = (qz 1000, qz 600) := by decide
example : bbox_sig ⟨qz 1000, qz 600, 0⟩ = bbox_sig ⟨qz 1000, qz 600, 7⟩ := by decide
example : bbox_sig ⟨qz 1000, qz 600, 0⟩ ≠ bbox_sig ⟨qz 1125, qz 650, 0⟩ := by decide


/-- Helper: the timeout message and the no-result message differ for every
rendered deadline, since one starts with T and the other with N. -/
theorem timeoutMsg_ne_noResultMsg (ts : String) : timeoutMsg ts ≠ noResultMsg := by
  intro h
  have hd := congrArg (fun s : String => s.data.head?) h
  simp only [timeoutMsg, noResultMsg, String.data_append, List.cons_append,
    List.head?_cons] at hd
  exact absurd hd (by decide)

/-- C2, counterexample: the worker's executable namespace does not expose
only the spec's allow-list — the exec builtins transcribed from the source
contain Python's module-import primitive, which the allow-list modelled from
the spec's words excludes, so module-import capability is reachable from
injected code. -/
theorem c2_confinement_counterexample :
    "__import__" ∈ workerBuiltins ∧ "__import__" ∉ specAllowedBuiltins := by
  decide

/-- C2, amended: the worker's executable namespace exposes exactly the
spec's allow-list (arithmetic/collection primitives with print, the math
library, the cq geometry handle) plus Python's module-import primitive, so
module import is reachable from injected code by design. -/
theorem c2_namespace_exact :
    workerBuiltins.all
        (fun k => (specAllowedBuiltins ++ ["__import__"]).contains k) = true ∧
    (specAllowedBuiltins ++ ["__import__"]).all
        (fun k => workerBuiltins.contains k) = true ∧
    workerGlobals = ["__builtins__", "cq", "math"] ∧
    workerBuiltins.contains "__import__" = true := by
  decide

/-- C5, counterexample: the three failure reports are not pairwise distinct
as the claim states — a snippet whose exception message equals the timeout
text produces exactly the ExecResult of a timed-out invocation, because the
result record distinguishes failures only by the message string. -/
theorem c5_failure_reports_counterexample :
    (run_ai_cadquery "45.0"
        (WorkerBehavior.reported (worker (WorkerEvent.snippetRaises (timeoutMsg "45.0"))))).result =
      (run_ai_cadquery "45.0" WorkerBehavior.hangs).result := by
  rfl

/-- C5, amended: a hanging snippet is killed at the join deadline and
reported with the fixed timeout message; a silently dying worker is reported
with the fixed no-result message; a snippet exception is reported with its
message text; the two fixed messages differ for every rendered deadline; and
the exception report is distinct from both fixed reports exactly when its
message text avoids the two fixed texts (the result record carries no status
tag beyond the message). -/
theorem c5_failure_reports :
    (∀ ts, run_ai_cadquery ts WorkerBehavior.hangs =
      ⟨⟨false, some (timeoutMsg ts), none⟩, true⟩) ∧
    (∀ ts, run_ai_cadquery ts WorkerBehavior.silent =
      ⟨⟨false, some noResultMsg, none⟩, false⟩) ∧
    (∀ ts m, run_ai_cadquery ts (WorkerBehavior.reported (WorkerReport.error m)) =
      ⟨⟨false, some m, none⟩, false⟩) ∧
    (∀ ts, timeoutMsg ts ≠ noResultMsg) ∧
    (∀ ts m, m ≠ timeoutMsg ts → m ≠ noResultMsg →
      (run_ai_cadquery ts (WorkerBehavior.reported (WorkerReport.error m))).result ≠
          (run_ai_cadquery ts WorkerBehavior.hangs).result ∧
      (run_ai_cadquery ts (WorkerBehavior.reported (WorkerReport.error m))).result ≠
          (run_ai_cadquery ts WorkerBehavior.silent).result) := by
  refine ⟨fun ts => rfl, fun ts => rfl, fun ts m => rfl,
    timeoutMsg_ne_noResultMsg, fun ts m hmt hmn => ⟨?_, ?_⟩⟩
  · intro h
    exact hmt (by simpa [run_ai_cadquery] using congrArg ExecResult.error h)
  · intro h
    exact hmn (by simpa [run_ai_cadquery] using congrArg ExecResult.error h)

/-- C5, witness for the amended theorem at the deadline the route uses and a
concrete snippet error. -/
theorem c5_failure_reports_witness :
    run_ai_cadquery "45.0" WorkerBehavior.hangs =
      ⟨⟨false, some (timeoutMsg "45.0"), none⟩, true⟩ ∧
    (run_ai_cadquery "45.0" (WorkerBehavior.reported (WorkerReport.error "boom"))).result ≠
        (run_ai_cadquery "45.0" WorkerBehavior.hangs).result ∧
    (run_ai_cadquery "45.0" (WorkerBehavior.reported (WorkerReport.error "boom"))).result ≠
        (run_ai_cadquery "45.0" WorkerBehavior.silent).result := by
  have h := c5_failure_reports
  refine ⟨h.1 "45.0", ?_, ?_⟩
  · exact (h.2.2.2.2 "45.0" "boom" (by decide) (by decide)).1
  · exact (h.2.2.2.2 "45.0" "boom" (by decide) (by decide)).2

/-- C10, counterexample: a snippet raising an exception whose str is empty
(raise Exception() in the injected code) is reported with ok false,
step_path none and error equal to the empty string, so the claimed
non-emptiness of the failure message fails. -/
theorem c10_shape_counterexample :
    (run_ai_cadquery "45.0"
        (WorkerBehavior.reported (worker (WorkerEvent.snippetRaises "")))).result =
      ⟨false, some "", none⟩ ∧
    ¬ c10ClaimShape ⟨false, some "", none⟩ := by
  refine ⟨rfl, ?_⟩
  rintro (⟨h, -, -⟩ | ⟨-, -, m, hm, hne⟩)
  · exact Bool.false_ne_true h
  · exact hne (Option.some.injEq .. ▸ hm.symm)

/-- C10, amended: every result of run_ai_cadquery has exactly one of two
shapes — ok true with error none and a present step_path, or ok false with
step_path none and a present (possibly empty) error string. -/
theorem c10_execresult_shape (ts : String) (b : WorkerBehavior) :
    ((run_ai_cadquery ts b).result.ok = true ∧
      (run_ai_cadquery ts b).result.error = none ∧
      (run_ai_cadquery ts b).result.step_path.isSome = true) ∨
    ((run_ai_cadquery ts b).result.ok = false ∧
      (run_ai_cadquery ts b).result.step_path = none ∧
      (run_ai_cadquery ts b).result.error.isSome = true) := by
  rcases b with _ | _ | r
  · right; exact ⟨rfl, rfl, rfl⟩
  · right; exact ⟨rfl, rfl, rfl⟩
  · rcases r with p | m
    · left; exact ⟨rfl, rfl, rfl⟩
    · right; exact ⟨rfl, rfl, rfl⟩

/-! ## Claims about the timeline (C7, C8, C9) -/

/-- Helper: history rows of an appended chain split, with the numbering of
the second part shifted by the length of the first. -/
theorem historyRows_append {α : Type} (i : ℕ) (l1 l2 : List (Commit α)) :
    historyRows i (l1 ++ l2) =
      historyRows i l1 ++ historyRows (i + l1.length) l2 := by
  induction l1 generalizing i with
  | nil => simp [historyRows]
  | cons c cs ih =>
      have harith : i + (cs.length + 1) = i + 1 + cs.length := by omega
      simp only [List.cons_append, historyRows, List.length_cons,
        List.append_eq, harith, ih]

/-- Helper: version numbers of history rows starting at i are the
consecutive integers from i. -/
theorem historyRows_map_version {α : Type} (i : ℕ) (l : List (Commit α)) :
    (historyRows i l).map (fun e => e.version) = List.range' i l.length := by
  induction l generalizing i with
  | nil => simp [historyRows]
  | cons c cs ih => simp [historyRows, ih, List.range'_succ]

/-- Helper: messages of history rows are the chain's messages in order. -/
theorem historyRows_map_message {α : Type} (i : ℕ) (l : List (Commit α)) :
    (historyRows i l).map (fun e => e.message) = l.map (fun c => c.message) := by
  induction l generalizing i with
  | nil => simp [historyRows]
  | cons c cs ih => simp [historyRows, ih]

/-- Helper: timestamps of history rows are the chain's commit dates. -/
theorem historyRows_map_timestamp {α : Type} (i : ℕ) (l : List (Commit α)) :
    (historyRows i l).map (fun e => e.timestamp) =
      l.map (fun c => c.committed_date) := by
  induction l generalizing i with
  | nil => simp [historyRows]
  | cons c cs ih => simp [historyRows, ih]

/-- Helper: history rows preserve length. -/
theorem historyRows_length {α : Type} (i : ℕ) (l : List (Commit α)) :
    (historyRows i l).length = l.length := by
  induction l generalizing i with
  | nil => rfl
  | cons c cs ih => simp [historyRows, ih]

/-- Helper: a sequence of save_revision calls appends one commit per call,
in call order, with ids issued consecutively from the counter. -/
theorem applySaves_chain {α : Type} (tl : CADTimeline α)
    (calls : List (String × Option (List String) × ℕ)) :
    (applySaves tl calls).chain.map (fun c => c.message) =
        tl.chain.map (fun c => c.message) ++ calls.map (fun c => c.1) ∧
    (applySaves tl calls).chain.map (fun c => c.committed_date) =
        tl.chain.map (fun c => c.committed_date) ++ calls.map (fun c => c.2.2) ∧
    (applySaves tl calls).chain.map (fun c => c.hexsha) =
        tl.chain.map (fun c => c.hexsha) ++ List.range' tl.nextId calls.length ∧
    (applySaves tl calls).chain.length = tl.chain.length + calls.length := by
  induction calls generalizing tl with
  | nil => simp [applySaves]
  | cons c rest ih =>
      obtain ⟨m, fs, t⟩ := c
      obtain ⟨ih1, ih2, ih3, ih4⟩ := ih (save_revision tl m fs t).2
      refine ⟨?_, ?_, ?_, ?_⟩
      · simp only [applySaves]; rw [ih1]; simp [save_revision]
      · simp only [applySaves]; rw [ih2]; simp [save_revision]
      · simp only [applySaves]; rw [ih3]; simp [save_revision, List.range'_succ]
      · simp only [applySaves]; rw [ih4]; simp [save_revision]; omega

/-- C7: starting from a fresh repository, N save_revision calls with no
truncation produce a history of exactly N rows, oldest first, one per call
in call order, with version numbers exactly 1..N. -/
theorem c7_monotonic_versions {α : Type} (w : FileMap α)
    (calls : List (String × Option (List String) × ℕ)) :
    (get_history (applySaves (emptyTimeline w) calls)).length = calls.length ∧
    (get_history (applySaves (emptyTimeline w) calls)).map (fun e => e.version) =
        List.range' 1 calls.length ∧
    (get_history (applySaves (emptyTimeline w) calls)).map (fun e => e.message) =
        calls.map (fun c => c.1) ∧
    (get_history (applySaves (emptyTimeline w) calls)).map (fun e => e.timestamp) =
        calls.map (fun c => c.2.2) := by
  obtain ⟨h1, h2, h3, h4⟩ := applySaves_chain (emptyTimeline w) calls
  have hlen : (applySaves (emptyTimeline w) calls).chain.length = calls.length := by
    simpa [emptyTimeline] using h4
  refine ⟨?_, ?_, ?_, ?_⟩
  · simp [get_history, historyRows_length, hlen]
  · rw [get_history, historyRows_map_version, hlen]
  · rw [get_history, historyRows_map_message, h1]; simp [emptyTimeline]
  · rw [get_history, historyRows_map_timestamp, h2]; simp [emptyTimeline]

/-- Helper: a hash occurring in a chain is found by find?, and the found
commit carries that hash. -/
theorem chain_find_mem {α : Type} (l : List (Commit α)) (h : ℕ)
    (hmem : h ∈ l.map (fun c => c.hexsha)) :
    ∃ c, l.find? (fun c => c.hexsha == h) = some c ∧ c.hexsha = h := by
  induction l with
  | nil => simp at hmem
  | cons a as ih =>
      simp only [List.map_cons, List.mem_cons] at hmem
      by_cases ha : a.hexsha = h
      · refine ⟨a, ?_, ha⟩
        rw [List.find?_cons_of_pos _ (by simp [ha])]
      · rcases hmem with h1 | h2
        · exact absurd h1.symm ha
        · obtain ⟨c, hf, hc⟩ := ih h2
          refine ⟨c, ?_, hc⟩
          rw [List.find?_cons_of_neg _ (by simp [ha]), hf]

/-- C9: checking out any commit that is in the timeline succeeds,
materializes that commit's recorded file contents into the working
directory, and leaves the chain, get_history (same rows, same order, same
version numbers) and the current HEAD row unchanged. -/
theorem c9_checkout_nondestructive {α : Type} (tl : CADTimeline α) (h : ℕ)
    (hmem : h ∈ tl.chain.map (fun c => c.hexsha)) :
    ∃ c tl', tl.chain.find? (fun c => c.hexsha == h) = some c ∧ c.hexsha = h ∧
      checkout_version tl h = some tl' ∧
      tl'.workdir = overlayTree tl.workdir c.tree ∧
      tl'.chain = tl.chain ∧
      get_history tl' = get_history tl ∧
      get_current_version tl' = get_current_version tl := by
  obtain ⟨c, hf, hc⟩ := chain_find_mem tl.chain h hmem
  refine ⟨c, ⟨tl.chain, overlayTree tl.index c.tree, tl.nextId,
    overlayTree tl.workdir c.tree⟩, hf, hc, ?_, rfl, rfl, rfl, rfl⟩
  simp [checkout_version, hf]

/-- C9, witness: the non-destructive checkout theorem applied to a concrete
one-commit timeline at its only hash. -/
theorem c9_checkout_nondestructive_witness :
    ∃ c tl', c9fixture.chain.find? (fun c => c.hexsha == 0) = some c ∧
      c.hexsha = 0 ∧
      checkout_version c9fixture 0 = some tl' ∧
      tl'.workdir = overlayTree c9fixture.workdir c.tree ∧
      tl'.chain = c9fixture.chain ∧
      get_history tl' = get_history c9fixture ∧
      get_current_version tl' = get_current_version c9fixture := by
  exact c9_checkout_nondestructive c9fixture 0 (by decide)

/-- C8: on a timeline built by five saves, truncate-then-commit from the
commit of version 3 (hash 2) discards the commits of versions 4 and 5
(hashes 3 and 4), appends one new commit (hash 5), and yields a history of
exactly the retained rows 1, 2, 3 unrenumbered plus the new row at rank 4;
the discarded hashes are no longer in the chain and can no longer be
checked out. -/
theorem c8_truncation_linearity {α : Type} (w : FileMap α)
    (m1 m2 m3 m4 m5 m6 : String) (f1 f2 f3 f4 f5 f6 : Option (List String))
    (t1 t2 t3 t4 t5 t6 : ℕ) :
    get_history (applySaves (emptyTimeline w)
        [(m1, f1, t1), (m2, f2, t2), (m3, f3, t3), (m4, f4, t4), (m5, f5, t5)]) =
      [⟨1, 0, m1, t1⟩, ⟨2, 1, m2, t2⟩, ⟨3, 2, m3, t3⟩, ⟨4, 3, m4, t4⟩,
        ⟨5, 4, m5, t5⟩] ∧
    ∃ tl6,
      save_revision_from (applySaves (emptyTimeline w)
          [(m1, f1, t1), (m2, f2, t2), (m3, f3, t3), (m4, f4, t4), (m5, f5, t5)])
          2 m6 f6 t6 = some (5, tl6) ∧
      get_history tl6 =
        [⟨1, 0, m1, t1⟩, ⟨2, 1, m2, t2⟩, ⟨3, 2, m3, t3⟩, ⟨4, 5, m6, t6⟩] ∧
      (tl6.chain.map (fun c => c.hexsha)).contains 3 = false ∧
      (tl6.chain.map (fun c => c.hexsha)).contains 4 = false ∧
      checkout_version tl6 3 = none ∧
      checkout_version tl6 4 = none := by
  refine ⟨rfl, _, rfl, rfl, rfl, rfl, rfl, rfl⟩

/-! ## Claims about the modification loop (C1, C3, C4, C6) -/

/-- Helper: writing one file leaves every other file's contents unchanged. -/
theorem findFile_setFile_ne {α : Type} (m : FileMap α) (k k' : String) (v : α)
    (h : ¬ k' = k) : findFile (setFile m k' v) k = findFile m k := by
  induction m with
  | nil => simp [setFile, findFile, h]
  | cons kv rest ih =>
      obtain ⟨key, w⟩ := kv
      by_cases hk : key = k'
      · subst hk
        simp [setFile, findFile, h]
      · simp only [setFile, findFile, hk, if_neg hk]
        by_cases hkk : key = k
        · simp [hkk]
        · simp [hkk, ih]

/-- Helper: writing an artifact file does not touch the commit chain. -/
theorem writeModelFile_chain (tl : CADTimeline StepFile) (name : String)
    (v : StepFile) : (writeModelFile tl name v).chain = tl.chain := rfl

/-- Helper: a preview.stl write leaves model.step unchanged. -/
theorem findFile_stl_write (tl : CADTimeline StepFile) (r : StepFile) :
    findFile (writeModelFile tl "preview.stl" r).workdir "model.step" =
      findFile tl.workdir "model.step" := by
  simp only [writeModelFile]
  exact findFile_setFile_ne _ _ _ _ (by decide)

/-- Helper: the preview.stl and preview.step writes leave model.step
unchanged. -/
theorem findFile_preview_writes (tl : CADTimeline StepFile) (r : StepFile) :
    findFile (writeModelFile (writeModelFile tl "preview.stl" r)
        "preview.step" r).workdir "model.step" =
      findFile tl.workdir "model.step" := by
  simp only [writeModelFile]
  rw [findFile_setFile_ne _ _ _ _ (by decide),
    findFile_setFile_ne _ _ _ _ (by decide)]

/-- Helper: an iteration whose oracle fails before the canonical-artifact
export never returns success, leaves model.step in the working tree exactly
as it was, and leaves the commit chain untouched. -/
theorem chatAttempt_preCommit (fv : Option ℕ) (i : ℕ) (env : AttemptEnv)
    (s : LoopState) (a : StepFile)
    (hc : findFile s.tl.workdir "model.step" = some a)
    (hf : attemptFailsPreCommit (bbox_sig a) env) :
    (chatAttempt fv i env s).isCommit = false ∧
    findFile (chatAttempt fv i env s).state.tl.workdir "model.step" = some a ∧
    (chatAttempt fv i env s).state.tl.chain = s.tl.chain := by
  obtain ⟨gen, wb, ra, ir, es, ep, em, gr, cr, now⟩ := env
  rcases gen with c | m
  · rcases wb with _ | _ | r
    · simp [chatAttempt, run_ai_cadquery, AttemptStep.isCommit,
        AttemptStep.state, hc]
    · simp [chatAttempt, run_ai_cadquery, AttemptStep.isCommit,
        AttemptStep.state, hc]
    · rcases r with p | m
      · rcases ir with _ | m
        · by_cases hsig : bbox_sig a = bbox_sig ra
          · simp [chatAttempt, run_ai_cadquery, hc, hsig,
              AttemptStep.isCommit, AttemptStep.state]
          · rcases es with _ | m
            · rcases ep with _ | m
              · rcases em with _ | m
                · exfalso
                  simp [attemptFailsPreCommit, run_ai_cadquery] at hf
                  exact hsig hf.symm
                · simp [chatAttempt, run_ai_cadquery, hc, hsig,
                    AttemptStep.isCommit, AttemptStep.state,
                    findFile_preview_writes, findFile_stl_write,
                    writeModelFile_chain]
              · simp [chatAttempt, run_ai_cadquery, hc, hsig,
                  AttemptStep.isCommit, AttemptStep.state,
                  findFile_stl_write, writeModelFile_chain]
            · simp [chatAttempt, run_ai_cadquery, hc, hsig,
                AttemptStep.isCommit, AttemptStep.state]
        · simp [chatAttempt, run_ai_cadquery, AttemptStep.isCommit,
            AttemptStep.state, hc]
      · simp [chatAttempt, run_ai_cadquery, AttemptStep.isCommit,
          AttemptStep.state, hc]
  · simp [chatAttempt, AttemptStep.isCommit, AttemptStep.state, hc]

/-- Helper: when every oracle in the stream fails before the
canonical-artifact export, the loop ends in the final HTTPException with
model.step and the commit chain exactly as at entry. -/
theorem chatRetryLoop_preCommit (fv : Option ℕ) (envs : ℕ → AttemptEnv)
    (a : StepFile)
    (hf : ∀ j, attemptFailsPreCommit (bbox_sig a) (envs j)) :
    ∀ fuel i s, findFile s.tl.workdir "model.step" = some a →
      ∃ d s', (chatRetryLoop fv envs i fuel s).outcome = ChatOutcome.failed d s' ∧
        findFile s'.tl.workdir "model.step" = some a ∧
        s'.tl.chain = s.tl.chain := by
  intro fuel
  induction fuel with
  | zero => exact fun i s hc => ⟨failDetail s.last_err, s, rfl, hc, rfl⟩
  | succ n ih =>
      intro i s hc
      obtain ⟨hnc, hkeep, hchain⟩ := chatAttempt_preCommit fv i (envs i) s a hc (hf i)
      rcases hstep : chatAttempt fv i (envs i) s with ⟨msg, code, s'⟩ | ⟨e, s'⟩ | ⟨e, s'⟩
      · rw [hstep] at hnc
        exact absurd hnc (by simp [AttemptStep.isCommit])
      · rw [hstep] at hkeep hchain
        simp only [AttemptStep.state] at hkeep hchain
        obtain ⟨d, s'', ho, hk, hch⟩ := ih (i + 1) s' hkeep
        refine ⟨d, s'', ?_, hk, hch.trans hchain⟩
        simp [chatRetryLoop, hstep, ho]
      · rw [hstep] at hkeep hchain
        simp only [AttemptStep.state] at hkeep hchain
        obtain ⟨d, s'', ho, hk, hch⟩ := ih (i + 1) s' hkeep
        refine ⟨d, s'', ?_, hk, hch.trans hchain⟩
        simp [chatRetryLoop, hstep, ho]

/-- C1, amended: for every modification request in which each attempt fails
before the canonical-artifact export (generator exception, non-ok sandbox
result, output-load exception, equal signatures, or an exception in one of
the three exports), the request ends in the final HTTPException and the
canonical model.step and the commit chain equal their values before the
call.  The restriction to pre-export failures is forced by the
counterexample: an attempt may also fail after overwriting model.step. -/
theorem c1_atomicity_preCommit (fv : Option ℕ) (envs : ℕ → AttemptEnv)
    (tl0 : CADTimeline StepFile) (p0 : String) (a : StepFile)
    (hc : findFile tl0.workdir "model.step" = some a)
    (hf : ∀ j, attemptFailsPreCommit (bbox_sig a) (envs j)) :
    ∃ d s', (chat_prompt_modification fv envs tl0 p0).outcome = ChatOutcome.failed d s' ∧
      findFile s'.tl.workdir "model.step" = some a ∧
      s'.tl.chain = tl0.chain :=
  chatRetryLoop_preCommit fv envs a hf MAX_RETRIES 0 ⟨p0, "Unknown", "", tl0⟩ hc

/-- C1, witness for the amended theorem: a request whose three attempts all
fail in generation leaves the concrete fixture repository untouched. -/
theorem c1_atomicity_preCommit_witness :
    ∃ d s', (chat_prompt_modification none (fun _ => envGenBoom) tlFix "add a hole").outcome =
        ChatOutcome.failed d s' ∧
      findFile s'.tl.workdir "model.step" = some a0 ∧
      s'.tl.chain = tlFix.chain :=
  c1_atomicity_preCommit none (fun _ => envGenBoom) tlFix "add a hole" a0
    (by decide) (fun j => Or.inl ⟨"boom", rfl⟩)

/-- C1, counterexample: a request that ends in the final HTTPException but
whose first attempt raised inside _stl_to_glb only after overwriting
model.step — the canonical artifact after the FAILED request is the
attempt's output b1, not the original a0, refuting whole-request
atomicity as stated. -/
theorem c1_atomicity_counterexample :
    (∃ s', (chat_prompt_modification none c1envs tlFix "add a hole").outcome =
        ChatOutcome.failed (failDetail "boom") s' ∧
      findFile s'.tl.workdir "model.step" = some b1) ∧
    findFile tlFix.workdir "model.step" = some a0 ∧
    b1 ≠ a0 ∧ bbox_sig b1 ≠ bbox_sig a0 := by
  exact ⟨⟨_, rfl, rfl⟩, rfl, by decide, by decide⟩

/-- Helper: an iteration whose generator returns code and whose worker
reports a (non-empty) snippet error takes the execution-failure branch:
continue with the error recorded and appended to the prompt, nothing
written, nothing committed. -/
theorem chatAttempt_execError (fv : Option ℕ) (i : ℕ) (env : AttemptEnv)
    (s : LoopState) (c m : String)
    (hgen : env.gen = GenOutcome.ok c)
    (hw : env.workerB = WorkerBehavior.reported (WorkerReport.error m))
    (hne : m ≠ "") :
    chatAttempt fv i env s = AttemptStep.retryContinue true
      ⟨execFeedback s.prompt m, m, c, s.tl⟩ := by
  obtain ⟨gen, wb, ra, ir, es, ep, em, gr, cr, now⟩ := env
  simp only at hgen hw
  subst hgen hw
  simp [chatAttempt, run_ai_cadquery, pyOrElse, hne]

/-- Helper: the loop never runs more iterations than its fuel, hence never
more than MAX_RETRIES from the route. -/
theorem chatRetryLoop_attempts_le (fv : Option ℕ) (envs : ℕ → AttemptEnv) :
    ∀ fuel i s, (chatRetryLoop fv envs i fuel s).attempts ≤ fuel := by
  intro fuel
  induction fuel with
  | zero => intro i s; exact Nat.le_refl 0
  | succ n ih =>
      intro i s
      rcases hstep : chatAttempt fv i (envs i) s with ⟨msg, code, s'⟩ | ⟨e, s'⟩ | ⟨e, s'⟩
      · simp only [chatRetryLoop, hstep]
        omega
      · simp only [chatRetryLoop, hstep]
        exact Nat.succ_le_succ (ih (i + 1) s')
      · simp only [chatRetryLoop, hstep]
        exact Nat.succ_le_succ (ih (i + 1) s')

/-- C3: when the generator always produces code whose execution fails (the
worker reports a runtime error on every attempt), the route performs exactly
3 generate/execute cycles — MAX_RETRIES is 3 and no run ever exceeds it —
and then ends in the final HTTPException carrying the last recorded error. -/
theorem c3_bounded_retries (envs : ℕ → AttemptEnv) (code msg : ℕ → String)
    (tl0 : CADTimeline StepFile) (p0 : String)
    (hgen : ∀ j, j < MAX_RETRIES → (envs j).gen = GenOutcome.ok (code j))
    (hw : ∀ j, j < MAX_RETRIES →
      (envs j).workerB = WorkerBehavior.reported (WorkerReport.error (msg j)))
    (hne : ∀ j, j < MAX_RETRIES → msg j ≠ "") :
    MAX_RETRIES = 3 ∧
    (chat_prompt_modification none envs tl0 p0).attempts = 3 ∧
    (chat_prompt_modification none envs tl0 p0).execCalls = 3 ∧
    (∃ s', (chat_prompt_modification none envs tl0 p0).outcome =
        ChatOutcome.failed (failDetail (msg 2)) s' ∧ s'.tl = tl0) ∧
    (∀ fv envs' tl p,
      (chat_prompt_modification fv envs' tl p).attempts ≤ MAX_RETRIES) := by
  have e0 := chatAttempt_execError none 0 (envs 0) ⟨p0, "Unknown", "", tl0⟩
    (code 0) (msg 0) (hgen 0 (by decide)) (hw 0 (by decide)) (hne 0 (by decide))
  have e1 := chatAttempt_execError none 1 (envs 1)
    ⟨execFeedback p0 (msg 0), msg 0, code 0, tl0⟩
    (code 1) (msg 1) (hgen 1 (by decide)) (hw 1 (by decide)) (hne 1 (by decide))
  have e2 := chatAttempt_execError none 2 (envs 2)
    ⟨execFeedback (execFeedback p0 (msg 0)) (msg 1), msg 1, code 1, tl0⟩
    (code 2) (msg 2) (hgen 2 (by decide)) (hw 2 (by decide)) (hne 2 (by decide))
    -- the next prompt grows, the timeline is untouched
  refine ⟨rfl, ?_, ?_, ?_, ?_⟩
  · show (chatRetryLoop none envs 0 3 ⟨p0, "Unknown", "", tl0⟩).attempts = 3
    rw [show (3 : ℕ) = 2 + 1 from rfl]
    simp only [chatRetryLoop, e0]
    rw [show (2 : ℕ) = 1 + 1 from rfl]
    simp only [chatRetryLoop, e1]
    rw [show (1 : ℕ) = 0 + 1 from rfl]
    simp only [chatRetryLoop, e2]
  · show (chatRetryLoop none envs 0 3 ⟨p0, "Unknown", "", tl0⟩).execCalls = 3
    rw [show (3 : ℕ) = 2 + 1 from rfl]
    simp only [chatRetryLoop, e0]
    rw [show (2 : ℕ) = 1 + 1 from rfl]
    simp only [chatRetryLoop, e1]
    rw [show (1 : ℕ) = 0 + 1 from rfl]
    simp only [chatRetryLoop, e2]
    simp
  · refine ⟨⟨execFeedback (execFeedback (execFeedback p0 (msg 0)) (msg 1)) (msg 2),
      msg 2, code 2, tl0⟩, ?_, rfl⟩
    show (chatRetryLoop none envs 0 3 ⟨p0, "Unknown", "", tl0⟩).outcome = _
    rw [show (3 : ℕ) = 2 + 1 from rfl]
    simp only [chatRetryLoop, e0]
    rw [show (2 : ℕ) = 1 + 1 from rfl]
    simp only [chatRetryLoop, e1]
    rw [show (1 : ℕ) = 0 + 1 from rfl]
    simp only [chatRetryLoop, e2, chatRetryLoop]
  · exact fun fv envs' tl p => chatRetryLoop_attempts_le fv envs' MAX_RETRIES 0 _

/-- C3, witness: a concrete run in which every attempt's code raises — three
cycles, then the final failure with the last error. -/
theorem c3_bounded_retries_witness :
    MAX_RETRIES = 3 ∧
    (chat_prompt_modification none (fun _ => ⟨GenOutcome.ok "bad code",
        WorkerBehavior.reported (WorkerReport.error "NameError: cq1 is not defined"),
        a0, none, none, none, none, none, none, 0⟩) tlFix "twist it").attempts = 3 ∧
    (chat_prompt_modification none (fun _ => ⟨GenOutcome.ok "bad code",
        WorkerBehavior.reported (WorkerReport.error "NameError: cq1 is not defined"),
        a0, none, none, none, none, none, none, 0⟩) tlFix "twist it").execCalls = 3 ∧
    (∃ s', (chat_prompt_modification none (fun _ => ⟨GenOutcome.ok "bad code",
        WorkerBehavior.reported (WorkerReport.error "NameError: cq1 is not defined"),
        a0, none, none, none, none, none, none, 0⟩) tlFix "twist it").outcome =
        ChatOutcome.failed (failDetail "NameError: cq1 is not defined") s' ∧
      s'.tl = tlFix) ∧
    (∀ fv envs' tl p,
      (chat_prompt_modification fv envs' tl p).attempts ≤ MAX_RETRIES) := by
  have hNE : ("NameError: cq1 is not defined" : String) ≠ "" := by decide
  exact c3_bounded_retries _ (fun _ => "bad code")
    (fun _ => "NameError: cq1 is not defined") tlFix "twist it"
    (fun j hj => rfl) (fun j hj => rfl) (fun j hj => hNE)

/-- C4: an attempt whose execution succeeds but whose output artifact has
the same signature (rounded volume/area tuple, compared by exact tuple
equality) as the current canonical artifact is classified as the no-op
failure: the loop records the no-change error, commits nothing (repository
and working tree untouched), appends the explicit corrective feedback to the
instruction, and the surrounding loop retries with that instruction. -/
theorem c4_noop_detection (fv : Option ℕ) (i : ℕ) (env : AttemptEnv)
    (s : LoopState) (a : StepFile) (c p : String)
    (hgen : env.gen = GenOutcome.ok c)
    (hw : env.workerB = WorkerBehavior.reported (WorkerReport.ok p))
    (hir : env.importRaises = none)
    (hc : findFile s.tl.workdir "model.step" = some a)
    (hsig : bbox_sig a = bbox_sig env.resultArtifact) :
    chatAttempt fv i env s = AttemptStep.retryContinue true
      ⟨noOpFeedback s.prompt, noOpErr, c, s.tl⟩ ∧
    (∀ envs fuel, envs i = env →
      chatRetryLoop fv envs i (fuel + 1) s =
        ⟨(chatRetryLoop fv envs (i + 1) fuel
            ⟨noOpFeedback s.prompt, noOpErr, c, s.tl⟩).outcome,
         (chatRetryLoop fv envs (i + 1) fuel
            ⟨noOpFeedback s.prompt, noOpErr, c, s.tl⟩).attempts + 1,
         (chatRetryLoop fv envs (i + 1) fuel
            ⟨noOpFeedback s.prompt, noOpErr, c, s.tl⟩).execCalls + 1⟩) := by
  have h1 : chatAttempt fv i env s = AttemptStep.retryContinue true
      ⟨noOpFeedback s.prompt, noOpErr, c, s.tl⟩ := by
    simp [chatAttempt, hgen, hw, hir, run_ai_cadquery, hc, hsig]
  refine ⟨h1, fun envs fuel he => ?_⟩
  simp only [chatRetryLoop, he, h1]
  simp

/-- C4, witness: a concrete attempt returning an artifact with the same
volume and area as the fixture canonical (but different bytes) is classified
no-op, commits nothing, and the loop retries with the corrective feedback. -/
theorem c4_noop_detection_witness :
    chatAttempt none 0 envNoop ⟨"make it bigger", "Unknown", "", tlFix⟩ =
      AttemptStep.retryContinue true
        ⟨noOpFeedback "make it bigger", noOpErr, "noop code", tlFix⟩ ∧
    chatRetryLoop none (fun _ => envNoop) 0 3 ⟨"make it bigger", "Unknown", "", tlFix⟩ =
      ⟨(chatRetryLoop none (fun _ => envNoop) 1 2
          ⟨noOpFeedback "make it bigger", noOpErr, "noop code", tlFix⟩).outcome,
       (chatRetryLoop none (fun _ => envNoop) 1 2
          ⟨noOpFeedback "make it bigger", noOpErr, "noop code", tlFix⟩).attempts + 1,
       (chatRetryLoop none (fun _ => envNoop) 1 2
          ⟨noOpFeedback "make it bigger", noOpErr, "noop code", tlFix⟩).execCalls + 1⟩ := by
  have h := c4_noop_detection none 0 envNoop ⟨"make it bigger", "Unknown", "", tlFix⟩
    a0 "noop code" "/tmp/out.step" rfl rfl rfl (by decide) (by decide)
  exact ⟨h.1, h.2 (fun _ => envNoop) 2 rfl⟩

set_option maxRecDepth 8000 in
/-- C6, counterexample: a modification request naming a from_version absent
from the timeline is not surfaced as an error — a fully successful attempt
ends in a success response, the canonical artifact is overwritten, and the
timeline silently receives a plain save_revision appended after HEAD. -/
theorem c6_fromversion_counterexample :
    ((get_history tlFix).find? (fun e => e.version == 99) = none) ∧
    (∃ s', (chat_prompt_modification (some 99) (fun _ => envSuccess) tlFix
        "cut a slot").outcome = ChatOutcome.success (appliedMsg 0) "c6code" s' ∧
      get_history s'.tl = [⟨1, 0, "init", 0⟩, ⟨2, 1, "cut a slot", 7⟩] ∧
      findFile s'.tl.workdir "model.step" = some b1) := by
  exact ⟨rfl, _, rfl, rfl, rfl⟩

/-- C6, amended: for a checkout request, a version absent from the timeline
is surfaced immediately as the 404 outcome with repository and working tree
unchanged (and the endpoint has no retry loop); for a modification request,
an absent edit_from_version is not surfaced — at commit time the route
silently falls back to a plain save_revision appended after the current
HEAD. -/
theorem c6_timeline_not_found :
    (∀ (α : Type) (tl : CADTimeline α) (v : ℕ),
      (get_history tl).find? (fun e => e.version == v) = none →
        checkoutEndpoint tl v = (CheckoutOutcome.notFound v, tl)) ∧
    (∀ (v i : ℕ) (env : AttemptEnv) (s : LoopState) (a : StepFile) (c p : String),
      env.gen = GenOutcome.ok c →
      env.workerB = WorkerBehavior.reported (WorkerReport.ok p) →
      env.importRaises = none →
      env.exportStlRaises = none →
      env.exportPreviewRaises = none →
      env.exportModelRaises = none →
      env.glbRaises = none →
      env.commitRaises = none →
      findFile s.tl.workdir "model.step" = some a →
      ¬ bbox_sig a = bbox_sig env.resultArtifact →
      (get_history s.tl).find? (fun e => e.version == v) = none →
      chatAttempt (some v) i env s = AttemptStep.committed (appliedMsg i) c
        ⟨s.prompt, s.last_err, c,
          (save_revision (writeModelFile (writeModelFile (writeModelFile
            (writeModelFile s.tl "preview.stl" env.resultArtifact)
            "preview.step" env.resultArtifact) "model.step" env.resultArtifact)
            "preview.glb" env.resultArtifact)
            (s.prompt.take 100) (some modFiles) env.now).2⟩) := by
  constructor
  · intro α tl v hnf
    simp [checkoutEndpoint, hnf]
  · intro v i env s a c p hgen hw hir hes hep hem hgr hcr hc hsig hnf
    simp only [get_history] at hnf
    simp [chatAttempt, hgen, hw, hir, hes, hep, hem, hgr, hcr, hc, hsig,
      run_ai_cadquery, commitTimeline, get_history, writeModelFile_chain, hnf]

/-- C6, witness: the amended theorem at the concrete fixture — the checkout
route returns 404 for version 99 without touching the repository, and a
successful modification with absent from_version 99 commits via the plain
save_revision fallback. -/
theorem c6_timeline_not_found_witness :
    checkoutEndpoint tlFix 99 = (CheckoutOutcome.notFound 99, tlFix) ∧
    chatAttempt (some 99) 0 envSuccess ⟨"cut a slot", "Unknown", "", tlFix⟩ =
      AttemptStep.committed (appliedMsg 0) "c6code"
        ⟨"cut a slot", "Unknown", "c6code",
          (save_revision (writeModelFile (writeModelFile (writeModelFile
            (writeModelFile tlFix "preview.stl" b1) "preview.step" b1)
            "model.step" b1) "preview.glb" b1)
            ((("cut a slot" : String)).take 100) (some modFiles) 7).2⟩ := by
  refine ⟨c6_timeline_not_found.1 StepFile tlFix 99 (by decide), ?_⟩
  exact c6_timeline_not_found.2 99 0 envSuccess ⟨"cut a slot", "Unknown", "", tlFix⟩
    a0 "c6code" "/tmp/out.step" rfl rfl rfl rfl rfl rfl rfl rfl (by decide)
    (by decide) (by decide)
